import Mathlib

set_option maxRecDepth 1000000

/-!
Verification development for the siegfried chess engine core.

The Rust source is shallowly embedded: `Bitboard` (`u64`) becomes `Nat`
with every left shift reduced modulo `2^64` (`shl64`), complement becomes
xor with the all-ones 64-bit word, and fallible operations (Rust panics)
return `Option`.  Each definition mirrors one function of the source
(`src/bitboard.rs`, `src/masks.rs`, `src/maps.rs`, `src/position.rs`,
`src/tree.rs`); source line references are given in the doc comments.
-/

namespace Siegfried

/-- A bitboard is a 64-bit word; we represent it as a `Nat` kept below `2^64`. -/
abbrev Bitboard := Nat

/-- 64-bit truncating left shift, mirroring Rust `u64` `<<` semantics. -/
def shl64 (a b : Nat) : Bitboard := (a <<< b) % (2 ^ 64)

/-- 64-bit bitwise complement, mirroring Rust `!` on `u64`. -/
def bnot64 (a : Bitboard) : Bitboard := Nat.xor 0xFFFFFFFFFFFFFFFF a

/-- Fuelled helper for `trailing_zeros`; 64 fuel steps cover any 64-bit word. -/
def tzAux : Nat → Nat → Nat
  | 0, _ => 0
  | f + 1, n => if n % 2 == 1 then 0 else 1 + tzAux f (n / 2)

/-- Rust `u64::trailing_zeros` (returns 64 on zero input). -/
def trailingZeros64 (n : Bitboard) : Nat := tzAux 64 n

/-- Fuelled helper for `count_ones`. -/
def popcountAux : Nat → Nat → Nat
  | 0, _ => 0
  | f + 1, n => if n == 0 then 0 else n % 2 + popcountAux f (n / 2)

/-- Rust `u64::count_ones`. -/
def countOnes64 (n : Bitboard) : Nat := popcountAux 64 n

/-- `Bitboard::from_square` (src/bitboard.rs line 82): `1u64 << square`. -/
def fromSquare (square : Nat) : Bitboard := shl64 1 square

/-- `Bitboard::set_bit` (src/bitboard.rs line 63). -/
def setBit (b : Bitboard) (square : Nat) : Bitboard := Nat.lor b (fromSquare square)

/-- `Bitboard::unset_bit` (src/bitboard.rs line 67). -/
def unsetBit (b : Bitboard) (square : Nat) : Bitboard := Nat.land b (bnot64 (fromSquare square))

/-- The lsb extracted by `Bitboard::pop_lsb` (src/bitboard.rs line 71):
`self & (!self + 1)` in wrapping 64-bit arithmetic. -/
def lsb64 (b : Bitboard) : Bitboard := Nat.land b ((bnot64 b + 1) % 2 ^ 64)

/-- `Bitboard::to_square` (src/bitboard.rs line 78): `trailing_zeros`. -/
def toSquare (b : Bitboard) : Nat := trailingZeros64 b

/-- Fuelled loop of `Bitboard::get_squares` (src/bitboard.rs line 86): pop the
lsb while the board is nonzero; 64 fuel steps suffice for a 64-bit word. -/
def getSquaresAux : Nat → Bitboard → List Nat
  | 0, _ => []
  | f + 1, b =>
    if b == 0 then []
    else toSquare (lsb64 b) :: getSquaresAux f (Nat.xor b (lsb64 b))

/-- `Bitboard::get_squares`: the set bit indices in ascending order. -/
def getSquares (b : Bitboard) : List Nat := getSquaresAux 64 b

/-! Constants from src/bitboard.rs. -/

def WHITE_KINGSIDE_CASTLE : Bitboard := 0x60
def WHITE_QUEENSIDE_CASTLE : Bitboard := 0xE
def BLACK_KINGSIDE_CASTLE : Bitboard := 0x6000000000000000
def BLACK_QUEENSIDE_CASTLE : Bitboard := 0xE00000000000000

def FILE_ABB : Bitboard := 0x0101010101010101
def FILE_BBB : Bitboard := shl64 FILE_ABB 1
def FILE_CBB : Bitboard := shl64 FILE_ABB 2
def FILE_DBB : Bitboard := shl64 FILE_ABB 3
def FILE_EBB : Bitboard := shl64 FILE_ABB 4
def FILE_FBB : Bitboard := shl64 FILE_ABB 5
def FILE_GBB : Bitboard := shl64 FILE_ABB 6
def FILE_HBB : Bitboard := shl64 FILE_ABB 7

def NOT_FILE_ABB : Bitboard :=
  Nat.lor FILE_BBB (Nat.lor FILE_CBB (Nat.lor FILE_DBB
    (Nat.lor FILE_EBB (Nat.lor FILE_FBB (Nat.lor FILE_GBB FILE_HBB)))))
def NOT_FILE_HBB : Bitboard :=
  Nat.lor FILE_ABB (Nat.lor FILE_BBB (Nat.lor FILE_CBB
    (Nat.lor FILE_DBB (Nat.lor FILE_EBB (Nat.lor FILE_FBB FILE_GBB)))))

def RANK_1BB : Bitboard := 0xFF
def RANK_2BB : Bitboard := shl64 RANK_1BB 8
def RANK_3BB : Bitboard := shl64 RANK_1BB 16
def RANK_4BB : Bitboard := shl64 RANK_1BB 24
def RANK_5BB : Bitboard := shl64 RANK_1BB 32
def RANK_6BB : Bitboard := shl64 RANK_1BB 40
def RANK_7BB : Bitboard := shl64 RANK_1BB 48
def RANK_8BB : Bitboard := shl64 RANK_1BB 56

def NOT_RANK_1BB : Bitboard :=
  Nat.lor RANK_2BB (Nat.lor RANK_3BB (Nat.lor RANK_4BB
    (Nat.lor RANK_5BB (Nat.lor RANK_6BB (Nat.lor RANK_7BB RANK_8BB)))))
def NOT_RANK_8BB : Bitboard :=
  Nat.lor RANK_1BB (Nat.lor RANK_2BB (Nat.lor RANK_3BB
    (Nat.lor RANK_4BB (Nat.lor RANK_5BB (Nat.lor RANK_6BB RANK_7BB)))))

def NOT_OUTER : Bitboard :=
  Nat.land NOT_FILE_ABB (Nat.land NOT_FILE_HBB (Nat.land NOT_RANK_1BB NOT_RANK_8BB))

/-! Corner masks from src/masks.rs lines 4-7. -/

def NE_CORNER : Bitboard := Nat.lor RANK_8BB FILE_HBB
def NW_CORNER : Bitboard := Nat.lor RANK_8BB FILE_ABB
def SW_CORNER : Bitboard := Nat.lor RANK_1BB FILE_ABB
def SE_CORNER : Bitboard := Nat.lor RANK_1BB FILE_HBB

/-- Generic embedding of the ray loops of src/masks.rs: `for x in 1..8`,
OR each `f x` into the accumulator, break (inclusively) once `halt` holds. -/
def scanRayAux (f : Nat → Bitboard) (halt : Bitboard → Bool) : Nat → Nat → Bitboard
  | 0, _ => 0
  | fuel + 1, x =>
    let ray := f x
    if halt ray then ray else Nat.lor ray (scanRayAux f halt fuel (x + 1))

/-- Ray loop starting at `x = 1`, at most 7 iterations, as in the source. -/
def scanRay (f : Nat → Bitboard) (halt : Bitboard → Bool) : Bitboard :=
  scanRayAux f halt 7 1

/-- `get_file_mask` (src/masks.rs lines 9-35). -/
def get_file_mask (square : Nat) : Bitboard :=
  let square_bb := fromSquare square
  let up :=
    if Nat.land square_bb RANK_8BB == 0 then
      scanRay (fun x => shl64 square_bb (8 * x)) (fun ray => Nat.land ray RANK_8BB != 0)
    else 0
  let down :=
    if Nat.land square_bb RANK_1BB == 0 then
      scanRay (fun x => square_bb >>> (8 * x)) (fun ray => Nat.land ray RANK_1BB != 0)
    else 0
  Nat.lor up down

/-- `get_rank_mask` (src/masks.rs lines 37-62). -/
def get_rank_mask (square : Nat) : Bitboard :=
  let square_bb := fromSquare square
  let west :=
    if Nat.land square_bb FILE_ABB == 0 then
      scanRay (fun x => square_bb >>> x) (fun ray => Nat.land ray FILE_ABB != 0)
    else 0
  let east :=
    if Nat.land square_bb FILE_HBB == 0 then
      scanRay (fun x => shl64 square_bb x) (fun ray => Nat.land ray FILE_HBB != 0)
    else 0
  Nat.lor west east

/-- `get_diagonal_descending_mask` (src/masks.rs lines 64-91): shifts by `7x`. -/
def get_diagonal_descending_mask (square : Nat) : Bitboard :=
  let square_bb := fromSquare square
  let nw :=
    if Nat.land square_bb NW_CORNER == 0 then
      scanRay (fun x => shl64 square_bb (6 * x + x)) (fun ray => Nat.land ray NW_CORNER != 0)
    else 0
  let se :=
    if Nat.land square_bb SE_CORNER == 0 then
      scanRay (fun x => square_bb >>> (6 * x + x)) (fun ray => Nat.land ray SE_CORNER != 0)
    else 0
  Nat.lor nw se

/-- `get_diagonal_ascending_mask` (src/masks.rs lines 93-120): shifts by `9x`. -/
def get_diagonal_ascending_mask (square : Nat) : Bitboard :=
  let square_bb := fromSquare square
  let sw :=
    if Nat.land square_bb SW_CORNER == 0 then
      scanRay (fun x => square_bb >>> (8 * x + x)) (fun ray => Nat.land ray SW_CORNER != 0)
    else 0
  let ne :=
    if Nat.land square_bb NE_CORNER == 0 then
      scanRay (fun x => shl64 square_bb (8 * x + x)) (fun ray => Nat.land ray NE_CORNER != 0)
    else 0
  Nat.lor sw ne

/-! Sides: `Side(0)` = WHITE, `Side(1)` = BLACK (src/types.rs). -/

def WHITE : Nat := 0
def BLACK : Nat := 1

/-- `Not for Side` (src/types.rs lines 158-168). -/
def sideNot (s : Nat) : Nat := if s == WHITE then BLACK else WHITE

/-- `mask_pawn_attacks` (src/masks.rs lines 123-137). -/
def mask_pawn_attacks (side : Nat) (square : Nat) : Bitboard :=
  let pawn := fromSquare square
  if side == WHITE then
    let a := if Nat.land pawn FILE_HBB == 0 then shl64 pawn 9 else 0
    let b := if Nat.land pawn FILE_ABB == 0 then shl64 pawn 7 else 0
    Nat.lor a b
  else
    let a := if Nat.land pawn FILE_ABB == 0 then pawn >>> 9 else 0
    let b := if Nat.land pawn FILE_HBB == 0 then pawn >>> 7 else 0
    Nat.lor a b

/-- `mask_knight_attacks` (src/masks.rs lines 140-166). -/
def mask_knight_attacks (square : Nat) : Bitboard :=
  let knight := fromSquare square
  let a :=
    if Nat.land knight FILE_HBB == 0 then
      let base := Nat.lor (shl64 knight 17) (knight >>> 15)
      if Nat.land knight FILE_GBB == 0 then
        Nat.lor base (Nat.lor (shl64 knight 10) (knight >>> 6))
      else base
    else 0
  let b :=
    if Nat.land knight FILE_ABB == 0 then
      let base := Nat.lor (knight >>> 17) (shl64 knight 15)
      if Nat.land knight FILE_BBB == 0 then
        Nat.lor base (Nat.lor (knight >>> 10) (shl64 knight 6))
      else base
    else 0
  Nat.lor a b

/-- `mask_bishop_attacks` (src/masks.rs lines 168-222): four diagonal rays,
each stopping inclusively at a corner mask or at a blocker of `occupancy`. -/
def mask_bishop_attacks (square : Nat) (occupancy : Bitboard) : Bitboard :=
  let bishop := fromSquare square
  let ne :=
    if Nat.land bishop NE_CORNER == 0 then
      scanRay (fun x => shl64 bishop (8 * x + x))
        (fun ray => Nat.land ray NE_CORNER != 0 || Nat.land ray occupancy != 0)
    else 0
  let nw :=
    if Nat.land bishop NW_CORNER == 0 then
      scanRay (fun x => shl64 bishop (6 * x + x))
        (fun ray => Nat.land ray NW_CORNER != 0 || Nat.land ray occupancy != 0)
    else 0
  let sw :=
    if Nat.land bishop SW_CORNER == 0 then
      scanRay (fun x => bishop >>> (8 * x + x))
        (fun ray => Nat.land ray SW_CORNER != 0 || Nat.land ray occupancy != 0)
    else 0
  let se :=
    if Nat.land bishop SE_CORNER == 0 then
      scanRay (fun x => bishop >>> (6 * x + x))
        (fun ray => Nat.land ray SE_CORNER != 0 || Nat.land ray occupancy != 0)
    else 0
  Nat.lor (Nat.lor ne nw) (Nat.lor sw se)

/-- `mask_rook_attacks` (src/masks.rs lines 225-277).  The south ray keeps the
source's `RANK_8BB` edge test (a benign slip there: the ray shifts to zero). -/
def mask_rook_attacks (square : Nat) (occupancy : Bitboard) : Bitboard :=
  let rook := fromSquare square
  let north :=
    if Nat.land rook RANK_8BB == 0 then
      scanRay (fun x => shl64 rook (8 * x))
        (fun ray => Nat.land ray RANK_8BB != 0 || Nat.land ray occupancy != 0)
    else 0
  let east :=
    if Nat.land rook FILE_ABB == 0 then
      scanRay (fun x => rook >>> x)
        (fun ray => Nat.land ray FILE_ABB != 0 || Nat.land ray occupancy != 0)
    else 0
  let south :=
    if Nat.land rook RANK_1BB == 0 then
      scanRay (fun x => rook >>> (8 * x))
        (fun ray => Nat.land ray RANK_8BB != 0 || Nat.land ray occupancy != 0)
    else 0
  let west :=
    if Nat.land rook FILE_HBB == 0 then
      scanRay (fun x => shl64 rook x)
        (fun ray => Nat.land ray FILE_HBB != 0 || Nat.land ray occupancy != 0)
    else 0
  Nat.lor (Nat.lor north east) (Nat.lor south west)

/-- `mask_king_attacks` (src/masks.rs lines 280-314). -/
def mask_king_attacks (square : Nat) : Bitboard :=
  let king := fromSquare square
  let a :=
    if Nat.land king FILE_HBB == 0 then
      Nat.lor (shl64 king 1) (if Nat.land king RANK_8BB == 0 then shl64 king 9 else 0)
    else 0
  let b :=
    if Nat.land king RANK_8BB == 0 then
      Nat.lor (shl64 king 8) (if Nat.land king FILE_ABB == 0 then shl64 king 7 else 0)
    else 0
  let c :=
    if Nat.land king FILE_ABB == 0 then
      Nat.lor (king >>> 1) (if Nat.land king RANK_1BB == 0 then king >>> 9 else 0)
    else 0
  let d :=
    if Nat.land king RANK_1BB == 0 then
      Nat.lor (king >>> 8) (if Nat.land king FILE_HBB == 0 then king >>> 7 else 0)
    else 0
  Nat.lor (Nat.lor a b) (Nat.lor c d)

/-! Attack maps (src/maps.rs).  The lazily-built 64-entry tables hold exactly
the values of the mask generators, so the lookups are embedded as direct
applications of those generators. -/

/-- `get_pawn_attacks` (src/maps.rs line 210): table lookup of `mask_pawn_attacks`. -/
def get_pawn_attacks (side square : Nat) : Bitboard := mask_pawn_attacks side square

/-- `get_knight_attacks` (src/maps.rs line 229). -/
def get_knight_attacks (square : Nat) : Bitboard := mask_knight_attacks square

/-- `get_king_attacks` (src/maps.rs line 416). -/
def get_king_attacks (square : Nat) : Bitboard := mask_king_attacks square

/-- `DIRECTIONAL_MAP_FILE[square]` (src/maps.rs lines 44-47, 145-151). -/
def DIRECTIONAL_MAP_FILE (square : Nat) : Bitboard := get_file_mask square

/-- `DIRECTIONAL_MAP_RANK[square]` (src/maps.rs lines 40-43, 137-143). -/
def DIRECTIONAL_MAP_RANK (square : Nat) : Bitboard := get_rank_mask square

/-- `DIRECTIONAL_MAP_DD[square]` (src/maps.rs lines 52-55, 129-135). -/
def DIRECTIONAL_MAP_DD (square : Nat) : Bitboard := get_diagonal_descending_mask square

/-- `DIRECTIONAL_MAP_DA[square]` (src/maps.rs lines 48-51, 121-127). -/
def DIRECTIONAL_MAP_DA (square : Nat) : Bitboard := get_diagonal_ascending_mask square

/-- Relevant blocker mask of a bishop square (src/maps.rs `get_bishop_blockers`,
lines 244-254): the empty-board attack rays clipped to the interior. -/
def bishop_blocker_mask (square : Nat) : Bitboard :=
  Nat.land (mask_bishop_attacks square 0) NOT_OUTER

/-- Relevant blocker mask of a rook square (src/maps.rs `get_rook_blockers`,
lines 320-335): empty-board rays with each single edge-square arm trimmed. -/
def rook_blocker_mask (square : Nat) : Bitboard :=
  let a0 := mask_rook_attacks square 0
  let a1 := if countOnes64 (Nat.land a0 FILE_ABB) == 1 then Nat.land a0 NOT_FILE_ABB else a0
  let a2 := if countOnes64 (Nat.land a1 FILE_HBB) == 1 then Nat.land a1 NOT_FILE_HBB else a1
  let a3 := if countOnes64 (Nat.land a2 RANK_1BB) == 1 then Nat.land a2 NOT_RANK_1BB else a2
  if countOnes64 (Nat.land a3 RANK_8BB) == 1 then Nat.land a3 NOT_RANK_8BB else a3

/-- `get_bishop_attacks` (src/maps.rs lines 304-308).  The PEXT magic table of
a square stores, at index `pext(b, mask)`, the reference attacks
`mask_bishop_attacks(square, b)` for every subset `b` of `mask`
(lines 256-302); since `pext(occ, mask) = pext(occ & mask, mask)` and `pext`
is injective on subsets of `mask`, the table lookup at occupancy `occ` is
precisely the reference attack set at `occ & mask`. -/
def get_bishop_attacks (square : Nat) (occupancy : Bitboard) : Bitboard :=
  mask_bishop_attacks square (Nat.land occupancy (bishop_blocker_mask square))

/-- `get_rook_attacks` (src/maps.rs lines 384-388), via the same PEXT-table
identity as `get_bishop_attacks`. -/
def get_rook_attacks (square : Nat) (occupancy : Bitboard) : Bitboard :=
  mask_rook_attacks square (Nat.land occupancy (rook_blocker_mask square))

/-- `get_queen_attacks` (src/maps.rs lines 401-403). -/
def get_queen_attacks (square : Nat) (occupancy : Bitboard) : Bitboard :=
  Nat.lor (get_rook_attacks square occupancy) (get_bishop_attacks square occupancy)

/-- Diagonal stepping loop of `get_ray_between_squares` (src/maps.rs lines
109-113), with explicit fuel (at most 7 steps are ever taken). -/
def rayBetweenDiagAux : Nat → Int → Int → Int → Int → Int → Int → Bitboard
  | 0, _, _, _, _, _, _ => 0
  | fuel + 1, file, rank, tf, tr, fsig, rsig =>
    if file != tf - fsig && rank != tr - rsig then
      let file1 := file + fsig
      let rank1 := rank + rsig
      Nat.lor (shl64 1 (rank1 * 8 + file1).toNat)
        (rayBetweenDiagAux fuel file1 rank1 tf tr fsig rsig)
    else 0

/-- `get_ray_between_squares` (src/maps.rs lines 74-117). -/
def get_ray_between_squares (frm tto : Nat) : Bitboard :=
  if frm == tto then 0
  else
    let from_file := frm % 8
    let from_rank := frm / 8
    let to_file := tto % 8
    let to_rank := tto / 8
    if from_file == to_file then
      (List.range 8).foldl (fun acc rank =>
        if min from_rank to_rank + 1 ≤ rank ∧ rank < max from_rank to_rank then
          Nat.lor acc (shl64 1 (rank * 8 + from_file))
        else acc) 0
    else if from_rank == to_rank then
      (List.range 8).foldl (fun acc file =>
        if min from_file to_file + 1 ≤ file ∧ file < max from_file to_file then
          Nat.lor acc (shl64 1 (from_rank * 8 + file))
        else acc) 0
    else
      let file_diff : Int := (to_file : Int) - (from_file : Int)
      let rank_diff : Int := (to_rank : Int) - (from_rank : Int)
      rayBetweenDiagAux 7 (from_file : Int) (from_rank : Int)
        (to_file : Int) (to_rank : Int) file_diff.sign rank_diff.sign

/-- `get_pawn_moves` (src/maps.rs lines 155-198). -/
def get_pawn_moves (side square : Nat) (occupancy : Bitboard) : Bitboard :=
  let square_bb := fromSquare square
  if side == WHITE then
    let square_in_front := shl64 square_bb 8
    if Nat.land square_in_front occupancy == 0 then
      if Nat.land square_bb RANK_2BB != 0 then
        let leap_square := shl64 square_in_front 8
        if Nat.land leap_square occupancy == 0 then
          Nat.lor square_in_front leap_square
        else square_in_front
      else square_in_front
    else 0
  else
    let square_in_front := square_bb >>> 8
    if Nat.land square_in_front occupancy == 0 then
      if Nat.land square_bb RANK_7BB != 0 then
        let leap_square := square_in_front >>> 8
        if Nat.land leap_square occupancy == 0 then
          Nat.lor square_in_front leap_square
        else square_in_front
      else square_in_front
    else 0

/-! Data model (src/types.rs and src/position.rs). -/

/-- Piece kind indices (src/types.rs lines 101-106). -/
def PAWN : Nat := 0
def KNIGHT : Nat := 1
def BISHOP : Nat := 2
def ROOK : Nat := 3
def QUEEN : Nat := 4
def KING : Nat := 5

/-- `GameState(pub u8)` (src/types.rs line 7). -/
structure GameState where
  val : Nat
deriving DecidableEq, Repr

/-- `GameState::CHECKMATE` (src/types.rs line 88). -/
def gsCHECKMATE : GameState := ⟨0⟩
/-- `GameState::CHECK` (src/types.rs line 89). -/
def gsCHECK : GameState := ⟨1⟩
/-- `GameState::DRAW` (src/types.rs line 90). -/
def gsDRAW : GameState := ⟨2⟩
/-- `GameState::ONGOING`, written `IN_PROGRESS` in the position.rs variant
(src/types.rs line 91). -/
def gsONGOING : GameState := ⟨3⟩

/-- `CastlingDirection` constants (src/types.rs lines 95-96). -/
def KING_SIDE : Nat := 0
def QUEEN_SIDE : Nat := 1

/-- `Castling` (src/position.rs lines 241-246). -/
structure Castling where
  white_king_side : Bool
  white_queen_side : Bool
  black_king_side : Bool
  black_queen_side : Bool
deriving DecidableEq, Repr

/-- `Castling::get_zobrist_index` (src/position.rs lines 308-325). -/
def Castling.get_zobrist_index (c : Castling) : Nat :=
  (if c.white_king_side then 1 else 0) + (if c.white_queen_side then 2 else 0) +
  (if c.black_king_side then 4 else 0) + (if c.black_queen_side then 8 else 0)

/-- `Translation` (src/position.rs lines 330-333). -/
structure Translation where
  frm : Nat
  tto : Nat
deriving DecidableEq, Repr

/-- `Move` (src/position.rs lines 337-343). -/
structure Move where
  translation : Option Translation
  promotion : Option Nat
  capture : Option Nat
  castling : Option Nat
  en_passant : Option Nat
deriving DecidableEq, Repr

/-- `PieceInfo` (src/position.rs lines 250-253). -/
structure PieceInfo where
  piece : Nat
  square : Nat
deriving DecidableEq, Repr

/-- `SideAttacks` (src/position.rs lines 257-265). -/
structure SideAttacks where
  check : Option PieceInfo
  double_check : Bool
  nonrays : Bitboard
  rays_h : Bitboard
  rays_v : Bitboard
  rays_dd : Bitboard
  rays_da : Bitboard
deriving Repr

/-- `SideAttacks::all` (src/position.rs lines 273-277). -/
def SideAttacks.all (s : SideAttacks) : Bitboard :=
  Nat.lor s.nonrays (Nat.lor s.rays_h (Nat.lor s.rays_v (Nat.lor s.rays_dd s.rays_da)))

/-- `AbsolutePins` (src/position.rs lines 281-286). -/
structure AbsolutePins where
  pins_h : Bitboard
  pins_v : Bitboard
  pins_dd : Bitboard
  pins_da : Bitboard
deriving Repr

/-- `AbsolutePins::all` (src/position.rs lines 292-296). -/
def AbsolutePins.all (p : AbsolutePins) : Bitboard :=
  Nat.lor p.pins_h (Nat.lor p.pins_v (Nat.lor p.pins_dd p.pins_da))

/-- `ZobristHasher` (src/position.rs lines 123-128); the key arrays (filled
with random words by `ZobristHasher::new`) are embedded as functions. -/
structure ZobristHasher where
  piece_hashes : Nat → Nat → Nat → Nat
  castling_hashes : Nat → Nat
  en_passant_hashes : Nat → Nat
  side_to_move_hash : Nat

/-- `ZobristMoveStack` (src/position.rs lines 195-198): a 100-entry array
(embedded as a length-100 list) and a write index. -/
structure ZobristMoveStack where
  zobrist_array : List Nat
  zobrist_array_index : Nat

/-- `ZobristMoveStack::new` (src/position.rs lines 201-206). -/
def ZobristMoveStack.fresh : ZobristMoveStack :=
  ⟨List.replicate 100 0, 0⟩

/-- Backward traversal of `get_repetitions` (src/position.rs lines 208-222):
count entries equal to the hash, returning early once 3 are found. -/
def getRepsAux (h : Nat) : List Nat → Nat → Nat
  | [], acc => acc
  | x :: xs, acc =>
    let acc1 := if x == h then acc + 1 else acc
    if acc1 ≥ 3 then acc1 else getRepsAux h xs acc1

/-- `ZobristMoveStack::get_repetitions`. -/
def ZobristMoveStack.get_repetitions (s : ZobristMoveStack) (h : Nat) : Nat :=
  getRepsAux h s.zobrist_array.reverse 0

/-- `ZobristMoveStack::add` (src/position.rs lines 224-236). -/
def ZobristMoveStack.add (s : ZobristMoveStack) (h : Nat) : ZobristMoveStack :=
  if s.zobrist_array_index == 99 then
    ⟨s.zobrist_array.drop 1 ++ [h], s.zobrist_array_index⟩
  else
    ⟨s.zobrist_array.set s.zobrist_array_index h, s.zobrist_array_index + 1⟩

/-- `Position` (src/position.rs lines 378-387).  `pieces` is the two-entry
array of six-entry bitboard arrays, embedded as nested lists. -/
structure Position where
  pieces : List (List Bitboard)
  halfmove_clock : Nat
  fullmove_number : Nat
  side_to_move : Nat
  castling_rights : Castling
  en_passant_square : Option Nat
  hasher : ZobristHasher
  zobrist_stack : ZobristMoveStack

/-- `PositionEvaluation` (src/position.rs lines 25-29). -/
structure PositionEvaluation where
  moves : List Move
  game_state : GameState
  score : Option Int

def SCORE_WHITE_WINS : Int := 1000000
def SCORE_BLACK_WINS : Int := -1000000
def SCORE_DRAW : Int := 0

/-- `PIECE_VALUES` (src/position.rs lines 35-42). -/
def PIECE_VALUES : List Int := [100, 300, 300, 500, 900, 0]

/-- Access `pieces[side][piece]`. -/
def Position.pieceBB (p : Position) (side piece : Nat) : Bitboard :=
  ((p.pieces.getD side []).getD piece 0)

/-- Write `pieces[side][piece]`. -/
def Position.setPieceBB (p : Position) (side piece : Nat) (bb : Bitboard) : Position :=
  { p with pieces := p.pieces.set side ((p.pieces.getD side []).set piece bb) }

/-- `SidePieces::occupancy` (src/position.rs lines 52-58). -/
def sideOccupancy (p : Position) (side : Nat) : Bitboard :=
  (List.range 6).foldl (fun acc i => Nat.lor acc (p.pieceBB side i)) 0

/-- `SidePieces::get_piece_type_at_square` (src/position.rs lines 60-67):
the first piece index `0..6` whose bitboard holds the square. -/
def get_piece_type_at_square (p : Position) (side square : Nat) : Option Nat :=
  (List.range 6).find? (fun x => Nat.land (p.pieceBB side x) (fromSquare square) != 0)

/-- `ZobristHasher::hash_position` (src/position.rs lines 163-187). -/
def hash_position (h : ZobristHasher) (p : Position) : Nat :=
  let pieceXor :=
    (List.range 2).foldl (fun acc side =>
      (List.range 6).foldl (fun acc piece =>
        (List.range 64).foldl (fun acc square =>
          if Nat.land (p.pieceBB side piece) (fromSquare square) != 0 then
            Nat.xor acc (h.piece_hashes side piece square)
          else acc) acc) acc) 0
  let c := Nat.xor pieceXor (h.castling_hashes p.castling_rights.get_zobrist_index)
  let e := match p.en_passant_square with
    | some sq => Nat.xor c (h.en_passant_hashes sq)
    | none => c
  if p.side_to_move == BLACK then Nat.xor e h.side_to_move_hash else e

/-- Check/double-check bookkeeping shared by every arm of `get_side_attacks`
(src/position.rs lines 450-460 and analogous arms). -/
def checkUpd (st : SideAttacks) (piece square : Nat) (attacks ekbb : Bitboard) : SideAttacks :=
  if Nat.land ekbb attacks != 0 then
    match st.check with
    | some _ => { st with double_check := true }
    | none => { st with check := some ⟨piece, square⟩ }
  else st

/-- `Position::get_side_attacks` (src/position.rs lines 432-544).  Note the
source assigns (`=`, not `|=`) the ray components for bishops, rooks and
queens, so a later slider of the same kind overwrites an earlier one; the
embedding reproduces that. -/
def get_side_attacks (p : Position) (side : Nat) (occupancy : Bitboard) : SideAttacks :=
  let enemy_side := sideNot side
  let ekbb := p.pieceBB enemy_side KING
  (List.range 6).foldl (fun st0 i =>
    (getSquares (p.pieceBB side i)).foldl (fun st square =>
      if i == PAWN then
        let pawn_attacks := get_pawn_attacks side square
        let st := checkUpd st PAWN square pawn_attacks ekbb
        { st with nonrays := Nat.lor st.nonrays pawn_attacks }
      else if i == KNIGHT then
        let knight_attacks := get_knight_attacks square
        let st := checkUpd st KNIGHT square knight_attacks ekbb
        { st with nonrays := Nat.lor st.nonrays knight_attacks }
      else if i == BISHOP then
        let bishop_attacks := get_bishop_attacks square occupancy
        let st := checkUpd st BISHOP square bishop_attacks ekbb
        { st with rays_dd := Nat.land bishop_attacks (DIRECTIONAL_MAP_DD square),
                  rays_da := Nat.land bishop_attacks (DIRECTIONAL_MAP_DA square) }
      else if i == ROOK then
        let rook_attacks := get_rook_attacks square occupancy
        let st := checkUpd st ROOK square rook_attacks ekbb
        { st with rays_h := Nat.land rook_attacks (DIRECTIONAL_MAP_FILE square),
                  rays_v := Nat.land rook_attacks (DIRECTIONAL_MAP_RANK square) }
      else if i == QUEEN then
        let queen_attacks := get_queen_attacks square occupancy
        let st := checkUpd st QUEEN square queen_attacks ekbb
        { st with rays_h := Nat.land queen_attacks (DIRECTIONAL_MAP_FILE square),
                  rays_v := Nat.land queen_attacks (DIRECTIONAL_MAP_RANK square),
                  rays_dd := Nat.land queen_attacks (DIRECTIONAL_MAP_DD square),
                  rays_da := Nat.land queen_attacks (DIRECTIONAL_MAP_DA square) }
      else
        let king_attacks := get_king_attacks square
        { st with nonrays := Nat.lor st.nonrays king_attacks })
      st0)
    ⟨none, false, 0, 0, 0, 0, 0⟩

/-- `Position::get_absolute_pins_for_side` (src/position.rs lines 546-592). -/
def get_absolute_pins_for_side (enemy_attacks : SideAttacks)
    (defender_occupancy : Bitboard) (defender_king_square : Nat) : AbsolutePins :=
  let relevant_rank := DIRECTIONAL_MAP_RANK defender_king_square
  let king_sees_h := Nat.land (Nat.land (get_rook_attacks defender_king_square defender_occupancy)
    relevant_rank) defender_occupancy
  let enemy_sees_h := Nat.land (Nat.land enemy_attacks.rays_h relevant_rank) defender_occupancy
  let pins_h := Nat.land king_sees_h enemy_sees_h
  let relevant_file := DIRECTIONAL_MAP_FILE defender_king_square
  let king_sees_v := Nat.land (Nat.land (get_rook_attacks defender_king_square defender_occupancy)
    relevant_file) defender_occupancy
  let enemy_sees_v := Nat.land (Nat.land enemy_attacks.rays_v relevant_file) defender_occupancy
  let pins_v := Nat.land king_sees_v enemy_sees_v
  let relevant_dd := DIRECTIONAL_MAP_DD defender_king_square
  let king_sees_dd := Nat.land (Nat.land (get_bishop_attacks defender_king_square defender_occupancy)
    relevant_dd) defender_occupancy
  let enemy_sees_dd := Nat.land (Nat.land enemy_attacks.rays_dd relevant_dd) defender_occupancy
  let pins_dd := Nat.land king_sees_dd enemy_sees_dd
  let relevant_da := DIRECTIONAL_MAP_DA defender_king_square
  let king_sees_da := Nat.land (Nat.land (get_bishop_attacks defender_king_square defender_occupancy)
    relevant_da) defender_occupancy
  let enemy_sees_da := Nat.land (Nat.land enemy_attacks.rays_da relevant_da) defender_occupancy
  let pins_da := Nat.land king_sees_da enemy_sees_da
  ⟨pins_h, pins_v, pins_dd, pins_da⟩

/-- `Position::get_raw_score` (src/position.rs lines 594-612). -/
def get_raw_score (p : Position) : Int :=
  let white_score := (List.range 6).foldl
    (fun acc i => acc + (countOnes64 (p.pieceBB WHITE i) : Int) * PIECE_VALUES.getD i 0) 0
  let black_score := (List.range 6).foldl
    (fun acc i => acc + (countOnes64 (p.pieceBB BLACK i) : Int) * PIECE_VALUES.getD i 0) 0
  white_score - black_score

/-- `Position::check_draw` (src/position.rs lines 614-704).  It pushes the
current hash on the repetition stack (the updated position is returned
alongside the verdict).  The insufficient-material scan iterates
`for side in 0..1`, i.e. over side 0 (White) only, exactly as the source. -/
def check_draw (p0 : Position) : Bool × Position :=
  let current_position_hash := hash_position p0.hasher p0
  let p := { p0 with zobrist_stack := p0.zobrist_stack.add current_position_hash }
  let repetitions := p.zobrist_stack.get_repetitions current_position_hash
  if repetitions ≥ 3 then (true, p)
  else if p.halfmove_clock ≥ 100 then (true, p)
  else
    let flags : Bool × Bool := (List.range 1).foldl (fun fl0 side =>
      (List.range 6).foldl (fun (fl : Bool × Bool) piece =>
        if piece == PAWN then
          if countOnes64 (p.pieceBB side piece) > 0 then
            (if side == 0 then (false, fl.2) else (fl.1, false)) else fl
        else if piece == KNIGHT then
          if countOnes64 (p.pieceBB side piece) > 1 then
            (if side == 0 then (false, fl.2) else (fl.1, false)) else fl
        else if piece == BISHOP then
          if countOnes64 (p.pieceBB side piece) > 1 then
            (if side == 0 then (false, fl.2) else (fl.1, false)) else fl
        else if piece == ROOK then
          if countOnes64 (p.pieceBB side piece) > 0 then
            (if side == 0 then (false, fl.2) else (fl.1, false)) else fl
        else if piece == QUEEN then
          if countOnes64 (p.pieceBB side piece) > 0 then
            (if side == 0 then (false, fl.2) else (fl.1, false)) else fl
        else fl) fl0) (true, true)
    if flags.1 && flags.2 then (true, p) else (false, p)

/-- `Position::make_move` (src/position.rs lines 1816-1980), with the three
source panics (empty from-square, invalid castling value, move with neither
translation nor castling) embedded as `none`.  Nat subtraction stands in for
the `u8` arithmetic of the queen-side castling squares, whose operands stay
in range for any position holding a king.  Note that after every branch the
source adds one more `halfmove_clock += 1` (line 1977) on top of the
branch-level reset/increment, and that the castling branch touches neither
`castling_rights` nor `en_passant_square`.  The source's white and black
castling arms are textually identical once the king square is read from the
king bitboard, so they are embedded once. -/
def make_move (p : Position) (m : Move) : Option Position :=
  let us := p.side_to_move
  let core : Option Position :=
    match m.translation with
    | some translation =>
      match get_piece_type_at_square p us translation.frm with
      | none => none
      | some from_piece =>
        if from_piece == PAWN then
          let q :=
            match m.en_passant with
            | some en_passant =>
              if en_passant == translation.tto then
                let q := p.setPieceBB us PAWN (setBit (p.pieceBB us PAWN) translation.tto)
                let q := { q with en_passant_square := some translation.tto }
                q.setPieceBB us PAWN (unsetBit (q.pieceBB us PAWN) translation.frm)
              else
                let q := p.setPieceBB us PAWN (setBit (p.pieceBB us PAWN) translation.tto)
                let q := { q with en_passant_square := none }
                let q := q.setPieceBB (sideNot us) PAWN
                  (unsetBit (q.pieceBB (sideNot us) PAWN) en_passant)
                q.setPieceBB us PAWN (unsetBit (q.pieceBB us PAWN) translation.frm)
            | none =>
              let q :=
                match m.promotion with
                | some promotion =>
                  p.setPieceBB us promotion (setBit (p.pieceBB us promotion) translation.tto)
                | none => p.setPieceBB us PAWN (setBit (p.pieceBB us PAWN) translation.tto)
              let q :=
                match m.capture with
                | some capture =>
                  q.setPieceBB (sideNot us) capture
                    (unsetBit (q.pieceBB (sideNot us) capture) translation.tto)
                | none => q
              let q := { q with en_passant_square := none }
              q.setPieceBB us PAWN (unsetBit (q.pieceBB us PAWN) translation.frm)
          some { q with halfmove_clock := 0 }
        else
          let q :=
            if from_piece == KING then
              if us == WHITE then
                { p with castling_rights :=
                    { p.castling_rights with white_king_side := false, white_queen_side := false } }
              else
                { p with castling_rights :=
                    { p.castling_rights with black_king_side := false, black_queen_side := false } }
            else if from_piece == ROOK then
              if us == WHITE then
                if translation.frm == 0 then
                  { p with castling_rights := { p.castling_rights with white_queen_side := false } }
                else if translation.frm == 7 then
                  { p with castling_rights := { p.castling_rights with white_king_side := false } }
                else p
              else
                if translation.frm == 56 then
                  { p with castling_rights := { p.castling_rights with black_queen_side := false } }
                else if translation.frm == 63 then
                  { p with castling_rights := { p.castling_rights with black_king_side := false } }
                else p
            else p
          let q := q.setPieceBB us from_piece (setBit (q.pieceBB us from_piece) translation.tto)
          let q := q.setPieceBB us from_piece (unsetBit (q.pieceBB us from_piece) translation.frm)
          let q := { q with halfmove_clock := q.halfmove_clock + 1 }
          let q :=
            match m.capture with
            | some capture =>
              let q := q.setPieceBB (sideNot us) capture
                (unsetBit (q.pieceBB (sideNot us) capture) translation.tto)
              { q with halfmove_clock := 0 }
            | none => q
          some { q with en_passant_square := none }
    | none =>
      match m.castling with
      | some c =>
        let king_square := toSquare (p.pieceBB us KING)
        if c == KING_SIDE then
          let q := p.setPieceBB us KING (unsetBit (p.pieceBB us KING) king_square)
          let q := q.setPieceBB us KING (setBit (q.pieceBB us KING) (king_square + 2))
          let q := q.setPieceBB us ROOK (unsetBit (q.pieceBB us ROOK) (king_square + 3))
          let q := q.setPieceBB us ROOK (setBit (q.pieceBB us ROOK) (king_square + 1))
          some { q with halfmove_clock := q.halfmove_clock + 1 }
        else if c == QUEEN_SIDE then
          let q := p.setPieceBB us KING (unsetBit (p.pieceBB us KING) king_square)
          let q := q.setPieceBB us KING (setBit (q.pieceBB us KING) (king_square - 2))
          let q := q.setPieceBB us ROOK (unsetBit (q.pieceBB us ROOK) (king_square - 4))
          let q := q.setPieceBB us ROOK (setBit (q.pieceBB us ROOK) (king_square - 1))
          some { q with halfmove_clock := q.halfmove_clock + 1 }
        else none
      | none => none
  core.map (fun q =>
    let q := if us == BLACK then { q with fullmove_number := q.fullmove_number + 1 } else q
    { q with side_to_move := sideNot us, halfmove_clock := q.halfmove_clock + 1 })

/-- The four promotion moves pushed in source order Q, R, B, N
(src/position.rs lines 819-858 and the analogous blocks). -/
def pawnPromos (frm tto : Nat) (cap : Option Nat) : List Move :=
  [⟨some ⟨frm, tto⟩, some QUEEN, cap, none, none⟩,
   ⟨some ⟨frm, tto⟩, some ROOK, cap, none, none⟩,
   ⟨some ⟨frm, tto⟩, some BISHOP, cap, none, none⟩,
   ⟨some ⟨frm, tto⟩, some KNIGHT, cap, none, none⟩]

/-- Castling generation of the not-in-check branch of `Position::evaluate`
(src/position.rs lines 740-803): king side first, then queen side; the
transit squares must be empty and unattacked. -/
def castlingMoves (p : Position) (us : Nat) (our_occupancy : Bitboard)
    (their_attacks : SideAttacks) : List Move :=
  if us == WHITE then
    (if p.castling_rights.white_king_side &&
        Nat.land our_occupancy WHITE_KINGSIDE_CASTLE == 0 &&
        Nat.land their_attacks.all WHITE_KINGSIDE_CASTLE == 0 then
      [⟨none, none, none, some KING_SIDE, none⟩] else []) ++
    (if p.castling_rights.white_queen_side &&
        Nat.land our_occupancy WHITE_QUEENSIDE_CASTLE == 0 &&
        Nat.land their_attacks.all WHITE_QUEENSIDE_CASTLE == 0 then
      [⟨none, none, none, some QUEEN_SIDE, none⟩] else [])
  else
    (if p.castling_rights.black_king_side &&
        Nat.land our_occupancy BLACK_KINGSIDE_CASTLE == 0 &&
        Nat.land their_attacks.all BLACK_KINGSIDE_CASTLE == 0 then
      [⟨none, none, none, some KING_SIDE, none⟩] else []) ++
    (if p.castling_rights.black_queen_side &&
        Nat.land our_occupancy BLACK_QUEENSIDE_CASTLE == 0 &&
        Nat.land their_attacks.all BLACK_QUEENSIDE_CASTLE == 0 then
      [⟨none, none, none, some QUEEN_SIDE, none⟩] else [])

/-- Pawn generation of the not-in-check branch, one source pawn square
(src/position.rs lines 806-1079).  Pushes are generated when the pawn is not
pinned horizontally or on either diagonal; otherwise, when it is not pinned
horizontally or vertically, captures and en passant are generated (the
capture field reads `get_piece_type_at_square` at the pawn's own FROM square,
as the source does). -/
def pawnMovesNotInCheck (p : Position) (us them : Nat)
    (occupancy their_occupancy : Bitboard) (our_pins : AbsolutePins)
    (square : Nat) : List Move :=
  let square_bb := fromSquare square
  if Nat.land our_pins.pins_h square_bb == 0 && Nat.land our_pins.pins_dd square_bb == 0 &&
     Nat.land our_pins.pins_da square_bb == 0 then
    (getSquares (get_pawn_moves us square occupancy)).flatMap (fun destination_square =>
      let destination_square_bb := fromSquare destination_square
      if us == WHITE && Nat.land destination_square_bb RANK_8BB != 0 then
        pawnPromos square destination_square none
      else if us == BLACK && Nat.land destination_square_bb RANK_1BB != 0 then
        pawnPromos square destination_square none
      else
        let two_sq_back := if us == WHITE then destination_square - 16 else destination_square + 16
        if square == two_sq_back then
          let sides_of_destination_square :=
            Nat.lor (shl64 destination_square_bb 1) (destination_square_bb >>> 1)
          if Nat.land sides_of_destination_square (p.pieceBB them PAWN) != 0 then
            [⟨some ⟨square, destination_square⟩, none, none, none, some destination_square⟩]
          else
            [⟨some ⟨square, destination_square⟩, none, none, none, none⟩]
        else
          [⟨some ⟨square, destination_square⟩, none, none, none, none⟩])
  else if Nat.land our_pins.pins_h square_bb == 0 && Nat.land our_pins.pins_v square_bb == 0 then
    let pawn_attacks := get_pawn_attacks us square
    let caps := (getSquares (Nat.land pawn_attacks their_occupancy)).flatMap
      (fun pawn_capture_square =>
        let pawn_capture_square_bb := fromSquare pawn_capture_square
        if us == WHITE && Nat.land pawn_capture_square_bb RANK_8BB != 0 then
          pawnPromos square pawn_capture_square (get_piece_type_at_square p them square)
        else if us == BLACK && Nat.land pawn_capture_square_bb RANK_1BB != 0 then
          pawnPromos square pawn_capture_square (get_piece_type_at_square p them square)
        else
          [⟨some ⟨square, pawn_capture_square⟩, none,
            get_piece_type_at_square p them square, none, none⟩])
    let eps :=
      match p.en_passant_square with
      | some ep_square =>
        let en_passant_capture_square := if us == WHITE then ep_square + 8 else ep_square - 8
        if Nat.land pawn_attacks (fromSquare en_passant_capture_square) != 0 then
          [⟨some ⟨square, en_passant_capture_square⟩, none, some PAWN, none, some ep_square⟩]
        else []
      | none => []
    caps ++ eps
  else []

/-- Knight generation of the not-in-check branch, one knight square
(src/position.rs lines 1081-1122): skipped entirely when pinned in any
direction. -/
def knightMovesNotInCheck (p : Position) (them : Nat)
    (our_occupancy their_occupancy : Bitboard) (our_pins : AbsolutePins)
    (knight : Nat) : List Move :=
  let knight_attacks := get_knight_attacks knight
  let current_knight_bb := fromSquare knight
  let valid_knight_attacks := Nat.land knight_attacks (bnot64 our_occupancy)
  if Nat.land our_pins.all current_knight_bb == 0 then
    (getSquares valid_knight_attacks).map (fun valid_knight_attack =>
      if Nat.land (fromSquare valid_knight_attack) their_occupancy != 0 then
        ⟨some ⟨knight, valid_knight_attack⟩, none,
          get_piece_type_at_square p them valid_knight_attack, none, none⟩
      else
        ⟨some ⟨knight, valid_knight_attack⟩, none, none, none, none⟩)
  else []

/-- Bishop generation of the not-in-check branch, one bishop square
(src/position.rs lines 1124-1180). -/
def bishopMovesNotInCheck (p : Position) (them : Nat)
    (occupancy our_occupancy their_occupancy : Bitboard) (our_pins : AbsolutePins)
    (bishop_square : Nat) : List Move :=
  let bishop_attacks := Nat.land (get_bishop_attacks bishop_square occupancy) (bnot64 our_occupancy)
  let current_bishop_bb := fromSquare bishop_square
  if Nat.land our_pins.pins_h current_bishop_bb == 0 &&
     Nat.land our_pins.pins_v current_bishop_bb == 0 then
    let valid_bishop_attacks :=
      if Nat.land our_pins.pins_dd current_bishop_bb != 0 then
        Nat.land bishop_attacks (DIRECTIONAL_MAP_DD bishop_square)
      else if Nat.land our_pins.pins_da current_bishop_bb != 0 then
        Nat.land bishop_attacks (DIRECTIONAL_MAP_DA bishop_square)
      else bishop_attacks
    (getSquares valid_bishop_attacks).map (fun valid_bishop_attack =>
      if Nat.land (fromSquare valid_bishop_attack) their_occupancy != 0 then
        ⟨some ⟨bishop_square, valid_bishop_attack⟩, none,
          get_piece_type_at_square p them valid_bishop_attack, none, none⟩
      else
        ⟨some ⟨bishop_square, valid_bishop_attack⟩, none, none, none, none⟩)
  else []

/-- Rook generation of the not-in-check branch, one rook square
(src/position.rs lines 1182-1238). -/
def rookMovesNotInCheck (p : Position) (them : Nat)
    (occupancy our_occupancy their_occupancy : Bitboard) (our_pins : AbsolutePins)
    (rook_square : Nat) : List Move :=
  let rook_attacks := Nat.land (get_rook_attacks rook_square occupancy) (bnot64 our_occupancy)
  let current_rook_bb := fromSquare rook_square
  if Nat.land our_pins.pins_dd current_rook_bb == 0 &&
     Nat.land our_pins.pins_da current_rook_bb == 0 then
    let valid_rook_attacks :=
      if Nat.land our_pins.pins_h current_rook_bb != 0 then
        Nat.land rook_attacks (DIRECTIONAL_MAP_RANK rook_square)
      else if Nat.land our_pins.pins_v current_rook_bb != 0 then
        Nat.land rook_attacks (DIRECTIONAL_MAP_FILE rook_square)
      else rook_attacks
    (getSquares valid_rook_attacks).map (fun valid_rook_attack =>
      if Nat.land (fromSquare valid_rook_attack) their_occupancy != 0 then
        ⟨some ⟨rook_square, valid_rook_attack⟩, none,
          get_piece_type_at_square p them valid_rook_attack, none, none⟩
      else
        ⟨some ⟨rook_square, valid_rook_attack⟩, none, none, none, none⟩)
  else []

/-- Queen generation of the not-in-check branch, one queen square
(src/position.rs lines 1240-1298).  The pin tests intersect the pin boards
with `queen_bb`, the bitboard of ALL friendly queens, exactly as the source
does (lines 1249, 1253, 1257, 1261). -/
def queenMovesNotInCheck (p : Position) (them : Nat)
    (occupancy our_occupancy their_occupancy : Bitboard) (our_pins : AbsolutePins)
    (queen_bb : Bitboard) (queen_square : Nat) : List Move :=
  let queen_attacks := Nat.land (get_queen_attacks queen_square occupancy) (bnot64 our_occupancy)
  let valid_queen_attacks :=
    if Nat.land our_pins.pins_h queen_bb != 0 then
      Nat.land queen_attacks (DIRECTIONAL_MAP_RANK queen_square)
    else if Nat.land our_pins.pins_v queen_bb != 0 then
      Nat.land queen_attacks (DIRECTIONAL_MAP_FILE queen_square)
    else if Nat.land our_pins.pins_dd queen_bb != 0 then
      Nat.land queen_attacks (DIRECTIONAL_MAP_DD queen_square)
    else if Nat.land our_pins.pins_da queen_bb != 0 then
      Nat.land queen_attacks (DIRECTIONAL_MAP_DA queen_square)
    else queen_attacks
  (getSquares valid_queen_attacks).map (fun valid_queen_attack =>
    if Nat.land (fromSquare valid_queen_attack) their_occupancy != 0 then
      ⟨some ⟨queen_square, valid_queen_attack⟩, none,
        get_piece_type_at_square p them valid_queen_attack, none, none⟩
    else
      ⟨some ⟨queen_square, valid_queen_attack⟩, none, none, none, none⟩)

/-- Move construction of the double-check branch (src/position.rs lines
1342-1373): only king moves; on a capture the captured piece index is the
first matching board, defaulting to 0. -/
def doubleCheckMoves (p : Position) (them our_king_square : Nat)
    (available_squares their_occupancy : Bitboard) : List Move :=
  (getSquares available_squares).map (fun square =>
    let square_bb := fromSquare square
    if Nat.land square_bb their_occupancy != 0 then
      let piece := (((List.range 6).find?
        (fun i => Nat.land (p.pieceBB them i) square_bb != 0)).getD 0)
      ⟨some ⟨our_king_square, square⟩, none, some piece, none, none⟩
    else
      ⟨some ⟨our_king_square, square⟩, none, none, none, none⟩)

/-- Single-check defender generation for one piece of ours
(src/position.rs lines 1385-1793).  The order capture-then-block-then-special
and every pin test (including the rook arm testing `pins_h` in both its rank
and file sub-branches, lines 1579 and 1591, and the pawn promotion tests
firing on NOT-last-rank checker squares, lines 1396 and 1445) follows the
source. -/
def inCheckPieceMoves (p : Position) (us them : Nat)
    (occupancy our_occupancy their_occupancy : Bitboard) (our_pins : AbsolutePins)
    (checker_square checker_piece : Nat) (between_bb : Bitboard)
    (their_attacks_wo_king_all : Bitboard) (piece square : Nat) : List Move :=
  let square_bb := fromSquare square
  let checker_square_bb := fromSquare checker_square
  if piece == PAWN then
    let pawn_attacks := get_pawn_attacks us square
    let capMoves :=
      if Nat.land pawn_attacks checker_square_bb != 0 then
        if Nat.land our_pins.pins_h square_bb == 0 && Nat.land our_pins.pins_v square_bb == 0 then
          if (us == WHITE && Nat.land checker_square_bb RANK_8BB == 0) ||
             (us == BLACK && Nat.land checker_square_bb RANK_1BB == 0) then
            pawnPromos square checker_square (some checker_piece)
          else
            [⟨some ⟨square, checker_square⟩, none, some checker_piece, none, none⟩]
        else []
      else []
    let blockMoves :=
      if checker_piece > KNIGHT then
        let pawn_moves := get_pawn_moves us square occupancy
        let valid_pawn_moves := Nat.land pawn_moves between_bb
        if valid_pawn_moves != 0 then
          if Nat.land our_pins.pins_h square_bb == 0 &&
             Nat.land our_pins.pins_v square_bb == 0 then
            if (us == WHITE && Nat.land valid_pawn_moves RANK_8BB == 0) ||
               (us == BLACK && Nat.land valid_pawn_moves RANK_1BB == 0) then
              pawnPromos square (toSquare valid_pawn_moves) none
            else
              [⟨some ⟨square, toSquare valid_pawn_moves⟩, none, none, none, none⟩]
          else []
        else []
      else []
    let epMoves :=
      if checker_piece == PAWN then
        match p.en_passant_square with
        | some ep_square =>
          if ep_square == checker_square then
            let en_passant_capture_square :=
              if us == WHITE then checker_square + 8 else checker_square - 8
            if Nat.land pawn_attacks (fromSquare en_passant_capture_square) != 0 then
              [⟨some ⟨square, checker_square⟩, none, some checker_piece, none,
                some checker_square⟩]
            else []
          else []
        | none => []
      else []
    capMoves ++ blockMoves ++ epMoves
  else if piece == KNIGHT then
    let knight_attacks := get_knight_attacks square
    let capMoves :=
      if Nat.land knight_attacks checker_square_bb != 0 then
        if Nat.land our_pins.pins_h square_bb == 0 && Nat.land our_pins.pins_v square_bb == 0 then
          [⟨some ⟨square, checker_square⟩, none, some checker_piece, none, none⟩]
        else []
      else []
    let blockMoves :=
      if checker_piece > KNIGHT then
        let valid_knight_moves := Nat.land knight_attacks between_bb
        if valid_knight_moves != 0 then
          if Nat.land our_pins.pins_h square_bb == 0 &&
             Nat.land our_pins.pins_v square_bb == 0 then
            [⟨some ⟨square, toSquare valid_knight_moves⟩, none, none, none, none⟩]
          else []
        else []
      else []
    capMoves ++ blockMoves
  else if piece == BISHOP then
    let bishop_attacks := get_bishop_attacks square occupancy
    let capMoves :=
      if Nat.land bishop_attacks checker_square_bb != 0 then
        if Nat.land our_pins.pins_h square_bb == 0 && Nat.land our_pins.pins_v square_bb == 0 then
          [⟨some ⟨square, checker_square⟩, none, some checker_piece, none, none⟩]
        else []
      else []
    let blockMoves :=
      if checker_piece > KNIGHT then
        let valid_bishop_moves := Nat.land bishop_attacks between_bb
        if valid_bishop_moves != 0 then
          if Nat.land our_pins.pins_h square_bb == 0 &&
             Nat.land our_pins.pins_v square_bb == 0 then
            [⟨some ⟨square, toSquare valid_bishop_moves⟩, none, none, none, none⟩]
          else []
        else []
      else []
    capMoves ++ blockMoves
  else if piece == ROOK then
    let rook_attacks := get_rook_attacks square occupancy
    let capMoves :=
      if Nat.land rook_attacks checker_square_bb != 0 then
        if Nat.land our_pins.pins_da square_bb == 0 &&
           Nat.land our_pins.pins_dd square_bb == 0 then
          if Nat.land (get_rank_mask square) checker_square_bb != 0 then
            if Nat.land our_pins.pins_h square_bb == 0 then
              [⟨some ⟨square, checker_square⟩, none, some checker_piece, none, none⟩]
            else []
          else
            if Nat.land our_pins.pins_h square_bb == 0 then
              [⟨some ⟨square, checker_square⟩, none, some checker_piece, none, none⟩]
            else []
        else []
      else []
    let blockMoves :=
      if checker_piece > KNIGHT then
        let valid_rook_moves := Nat.land rook_attacks between_bb
        if valid_rook_moves != 0 then
          if Nat.land our_pins.pins_da square_bb == 0 &&
             Nat.land our_pins.pins_dd square_bb == 0 then
            (getSquares valid_rook_moves).flatMap (fun valid_rook_move =>
              if Nat.land (get_rank_mask square) (fromSquare valid_rook_move) != 0 then
                if Nat.land our_pins.pins_h square_bb == 0 then
                  [⟨some ⟨square, valid_rook_move⟩, none, none, none, none⟩]
                else []
              else
                if Nat.land our_pins.pins_h square_bb == 0 then
                  [⟨some ⟨square, valid_rook_move⟩, none, none, none, none⟩]
                else [])
          else []
        else []
      else []
    capMoves ++ blockMoves
  else if piece == QUEEN then
    let queen_attacks := get_queen_attacks square occupancy
    let capMoves :=
      if Nat.land queen_attacks checker_square_bb != 0 then
        if Nat.land (get_rank_mask square) checker_square_bb != 0 then
          if Nat.land our_pins.pins_h square_bb == 0 &&
             Nat.land our_pins.pins_da square_bb == 0 &&
             Nat.land our_pins.pins_dd square_bb == 0 then
            [⟨some ⟨square, checker_square⟩, none, some checker_piece, none, none⟩]
          else []
        else if Nat.land (get_file_mask square) checker_square_bb != 0 then
          if Nat.land our_pins.pins_v square_bb == 0 &&
             Nat.land our_pins.pins_da square_bb == 0 &&
             Nat.land our_pins.pins_dd square_bb == 0 then
            [⟨some ⟨square, checker_square⟩, none, some checker_piece, none, none⟩]
          else []
        else if Nat.land (DIRECTIONAL_MAP_DD square) checker_square_bb != 0 then
          if Nat.land our_pins.pins_h square_bb == 0 &&
             Nat.land our_pins.pins_v square_bb == 0 then
            [⟨some ⟨square, checker_square⟩, none, some checker_piece, none, none⟩]
          else []
        else if Nat.land (DIRECTIONAL_MAP_DA square) checker_square_bb != 0 then
          if Nat.land our_pins.pins_h square_bb == 0 &&
             Nat.land our_pins.pins_v square_bb == 0 then
            [⟨some ⟨square, checker_square⟩, none, some checker_piece, none, none⟩]
          else []
        else []
      else []
    let blockMoves :=
      if checker_piece > KNIGHT then
        let valid_queen_moves := Nat.land queen_attacks between_bb
        (getSquares valid_queen_moves).flatMap (fun valid_queen_move =>
          if Nat.land (get_rank_mask square) (fromSquare valid_queen_move) != 0 then
            if Nat.land our_pins.pins_h square_bb == 0 &&
               Nat.land our_pins.pins_da square_bb == 0 &&
               Nat.land our_pins.pins_dd square_bb == 0 then
              [⟨some ⟨square, valid_queen_move⟩, none, none, none, none⟩]
            else []
          else if Nat.land (get_file_mask square) (fromSquare valid_queen_move) != 0 then
            if Nat.land our_pins.pins_v square_bb == 0 &&
               Nat.land our_pins.pins_da square_bb == 0 &&
               Nat.land our_pins.pins_dd square_bb == 0 then
              [⟨some ⟨square, valid_queen_move⟩, none, none, none, none⟩]
            else []
          else
            if Nat.land our_pins.pins_h square_bb == 0 &&
               Nat.land our_pins.pins_v square_bb == 0 then
              [⟨some ⟨square, valid_queen_move⟩, none, none, none, none⟩]
            else [])
      else []
    capMoves ++ blockMoves
  else
    let valid_attacks := Nat.land (Nat.land (get_king_attacks square) (bnot64 our_occupancy))
      (bnot64 their_attacks_wo_king_all)
    (getSquares valid_attacks).map (fun attack =>
      let attack_bb := fromSquare attack
      if Nat.land attack_bb checker_square_bb != 0 then
        ⟨some ⟨square, attack⟩, none, some checker_piece, none, none⟩
      else if Nat.land attack_bb their_occupancy != 0 then
        ⟨some ⟨square, attack⟩, none, get_piece_type_at_square p them square, none, none⟩
      else
        ⟨some ⟨square, attack⟩, none, none, none, none⟩)

/-- `Position::evaluate` (src/position.rs lines 706-1814): draw detection
first, then legal-move generation split on whether the side to move is in
check.  The not-in-check branch generates castling, pawn, knight, bishop,
rook and queen moves (it contains no king-move section), and when it falls
through, the final return carries the initial `IN_PROGRESS` game state and
the raw material score; `game_state` is set to `CHECK` only in the
double-check branch (line 1341). -/
def evaluate (p0 : Position) : PositionEvaluation :=
  let cd := check_draw p0
  if cd.1 then ⟨[], gsDRAW, some SCORE_DRAW⟩
  else
    let p := cd.2
    let game_state := gsONGOING
    let us := p.side_to_move
    let them := sideNot us
    let our_occupancy := sideOccupancy p us
    let their_occupancy := sideOccupancy p them
    let occupancy := Nat.lor our_occupancy their_occupancy
    let our_king := p.pieceBB us KING
    let our_king_square := toSquare our_king
    let their_attacks := get_side_attacks p them occupancy
    let our_pins := get_absolute_pins_for_side their_attacks our_occupancy (toSquare our_king)
    let score := some (get_raw_score p)
    match their_attacks.check with
    | none =>
      let moves :=
        castlingMoves p us our_occupancy their_attacks ++
        (getSquares (p.pieceBB us PAWN)).flatMap
          (pawnMovesNotInCheck p us them occupancy their_occupancy our_pins) ++
        (getSquares (p.pieceBB us KNIGHT)).flatMap
          (knightMovesNotInCheck p them our_occupancy their_occupancy our_pins) ++
        (getSquares (p.pieceBB us BISHOP)).flatMap
          (bishopMovesNotInCheck p them occupancy our_occupancy their_occupancy our_pins) ++
        (getSquares (p.pieceBB us ROOK)).flatMap
          (rookMovesNotInCheck p them occupancy our_occupancy their_occupancy our_pins) ++
        (getSquares (p.pieceBB us QUEEN)).flatMap
          (queenMovesNotInCheck p them occupancy our_occupancy their_occupancy our_pins
            (p.pieceBB us QUEEN))
      ⟨moves, game_state, score⟩
    | some checker =>
      let our_attacks_all := (get_side_attacks p us occupancy).all
      let occupancy_without_our_king := Nat.land occupancy (bnot64 our_king)
      let their_attacks_without_our_king := get_side_attacks p them occupancy_without_our_king
      if their_attacks.double_check then
        let available_squares := Nat.land
          (Nat.land (get_king_attacks our_king_square) (bnot64 our_occupancy))
          (bnot64 their_attacks_without_our_king.all)
        if available_squares == 0 then
          if us == WHITE then ⟨[], gsCHECKMATE, some SCORE_BLACK_WINS⟩
          else ⟨[], gsCHECKMATE, some SCORE_WHITE_WINS⟩
        else
          ⟨doubleCheckMoves p them our_king_square available_squares their_occupancy,
            gsCHECK, score⟩
      else
        let checker_square := checker.square
        let checker_square_bb := fromSquare checker_square
        let checker_piece := checker.piece
        let between_bb := get_ray_between_squares our_king_square checker_square
        let moves :=
          if Nat.land our_attacks_all checker_square_bb != 0 ||
             Nat.land our_attacks_all between_bb != 0 then
            (List.range 6).flatMap (fun piece =>
              (getSquares (p.pieceBB us piece)).flatMap (fun square =>
                inCheckPieceMoves p us them occupancy our_occupancy their_occupancy our_pins
                  checker_square checker_piece between_bb
                  their_attacks_without_our_king.all piece square))
          else []
        if moves.isEmpty then
          ⟨[], gsCHECKMATE, some (if us == WHITE then SCORE_BLACK_WINS else SCORE_WHITE_WINS)⟩
        else
          ⟨moves, game_state, score⟩

/-! Search tree (src/tree.rs).  Node ids are dense naturals; the three
`HashMap`s become association lists (one entry per key; iteration order of a
`HashMap` is arbitrary, and the properties proved below do not depend on the
order).  The `f32` node scores play no role in frontier selection and are
embedded as `Option Int`. -/

/-- `Node` (src/tree.rs lines 39-46). -/
structure Node where
  parent_move : Option Move
  position : Position
  available_moves : List Move
  score : Option Int
  game_state : GameState
  depth : Nat

/-- `PositionTree` (src/tree.rs lines 48-54). -/
structure PositionTree where
  root : Nat
  parent : List (Nat × Nat)
  children : List (Nat × List Nat)
  values : List (Nat × Node)
  depth : Nat

/-- `PositionTree::get_game_state` (src/tree.rs lines 105-107); the panicking
`unwrap` on a missing key is embedded as `Option`. -/
def PositionTree.get_game_state (t : PositionTree) (index : Nat) : Option GameState :=
  (t.values.find? (fun pr => pr.1 == index)).map (fun pr => pr.2.game_state)

/-- `PositionTree::get_children` (src/tree.rs lines 89-91). -/
def PositionTree.get_children (t : PositionTree) (index : Nat) : Option (List Nat) :=
  (t.children.find? (fun pr => pr.1 == index)).map (fun pr => pr.2)

/-- `calculate_all_moves_to_expand` (src/tree.rs lines 17-25): the source
takes `4 * (n as f64).sqrt() as usize`, i.e. four times the integer square
root for any realistic frontier size, capped at `n`. -/
def calculate_all_moves_to_expand (total_moves : Nat) : Nat :=
  let moves_to_expand := 4 * Nat.sqrt total_moves
  if moves_to_expand > total_moves then total_moves else moves_to_expand

/-- `calculate_moves_to_expand` (src/tree.rs lines 27-35). -/
def calculate_moves_to_expand (total_moves : Nat) : Nat :=
  let moves_to_expand := Nat.sqrt total_moves + 1
  if moves_to_expand > total_moves then total_moves else moves_to_expand

/-- `PositionTree::get_all_nodes_to_expand` (src/tree.rs lines 196-213): the
frontier of one `expand_to_depth` pass.  All current-depth nodes whose looked
up game state is `CHECK`, followed by the current-depth `ONGOING` nodes
truncated to the width bound.  These are exactly the indices the loop of
`expand_to_depth` (lines 256-279) passes to `expand_node`. -/
def PositionTree.get_all_nodes_to_expand (t : PositionTree) : List Nat :=
  let checks_at_depth := (t.values.filter (fun pr =>
    pr.2.depth == t.depth && t.get_game_state pr.1 == some gsCHECK)).map (fun pr => pr.1)
  let nodes_at_depth := (t.values.filter (fun pr =>
    pr.2.depth == t.depth && t.get_game_state pr.1 == some gsONGOING)).map (fun pr => pr.1)
  let nodes_to_evaluate := calculate_all_moves_to_expand nodes_at_depth.length
  checks_at_depth ++ nodes_at_depth.take nodes_to_evaluate

/-- `PositionTree::get_nodes_to_expand` (src/tree.rs lines 169-194), the
per-parent variant used by `expand_to_depth_v2`: nothing if the parent is
terminal, else its `CHECK` children followed by the width-bounded `ONGOING`
children.  The source `unwrap`s the children lookup; a missing entry (a
panic there) is embedded as the empty selection. -/
def PositionTree.get_nodes_to_expand (t : PositionTree) (index : Nat) : List Nat :=
  if t.get_game_state index == some gsCHECKMATE || t.get_game_state index == some gsDRAW then []
  else
    let moves_to_expand := calculate_moves_to_expand t.values.length
    let children := (t.get_children index).getD []
    let checks := children.filter (fun c => t.get_game_state c == some gsCHECK)
    let non_checks := (children.filter (fun c => t.get_game_state c == some gsONGOING)).take
      moves_to_expand
    checks ++ non_checks

/-! Concrete positions used to evaluate the embedded engine.  The Zobrist
hasher below is one admissible instance of the randomly keyed tables built by
`ZobristHasher::new`: all castling keys are 1 and every other key is 0, so
every position hashes to a nonzero word and a fresh repetition stack never
reports a repetition. -/

/-- A concrete admissible Zobrist key schedule. -/
def constHasher : ZobristHasher := ⟨fun _ _ _ => 0, fun _ => 1, fun _ => 0, 0⟩

def noCastling : Castling := ⟨false, false, false, false⟩

/-- Assemble a `Position` from the two six-entry piece arrays. -/
def mkPosition (w b : List Bitboard) (stm : Nat) (cr : Castling) (ep : Option Nat)
    (hm fm : Nat) : Position :=
  ⟨[w, b], hm, fm, stm, cr, ep, constHasher, ZobristMoveStack.fresh⟩

/-- White Ka1, Pb2; Black Na3, Bc3, Kh8; White to move.  The white pawn is
absolutely pinned on the a1-h8 diagonal by the bishop on c3. -/
def P1 : Position :=
  mkPosition [0x200, 0, 0, 0, 0, 1] [0, 0x10000, 0x40000, 0, 0, 2 ^ 63] WHITE noCastling none 0 1

/-- The pawn capture b2xa3 off the pin diagonal. -/
def mC1 : Move := ⟨some ⟨9, 16⟩, none, none, none, none⟩

/-- The stalemate scenario `7k/8/8/8/8/8/5PPP/4R2K b - - 0 1`. -/
def P3 : Position :=
  mkPosition [0xE000, 0, 0, 0x10, 0, 0x80] [0, 0, 0, 0, 0, 2 ^ 63] BLACK noCastling none 0 1

/-- The standard starting position (piece boards of `new_game_pieces`,
src/position.rs lines 70-119). -/
def startPos : Position :=
  mkPosition [0xFF00, 0x42, 0x24, 0x81, 0x8, 0x10]
    [0xFF000000000000, 0x4200000000000000, 0x2400000000000000,
     0x8100000000000000, 0x800000000000000, 0x1000000000000000]
    WHITE ⟨true, true, true, true⟩ none 0 1

/-- The double pawn push e2e4. -/
def mE2E4 : Move := ⟨some ⟨12, 28⟩, none, none, none, none⟩

/-- The quiet knight move Nb1c3. -/
def mNB1C3 : Move := ⟨some ⟨1, 18⟩, none, none, none, none⟩

/-- The castling scenario `r3k2r/pppppppp/8/8/8/8/PPPPPPPP/R3K2R w KQkq - 0 1`. -/
def P5 : Position :=
  mkPosition [0xFF00, 0, 0, 0x81, 0, 0x10]
    [0xFF000000000000, 0, 0, 0x8100000000000000, 0, 0x1000000000000000]
    WHITE ⟨true, true, true, true⟩ none 0 1

/-- White castles king side. -/
def mOO : Move := ⟨none, none, none, some KING_SIDE, none⟩

/-- White castles queen side. -/
def mOOO : Move := ⟨none, none, none, some QUEEN_SIDE, none⟩

/-- White Ke1 alone versus Black Ke8 and Qd8; White to move. -/
def P6 : Position :=
  mkPosition [0, 0, 0, 0, 0, 0x10] [0, 0, 0, 0, 2 ^ 59, 2 ^ 60] WHITE noCastling none 0 1

/-- The scenario after a1a5 in `8/8/8/2k5/8/2K5/8/R7 w - - 0 1`: White Ra5,
Kc3; Black Kc5; Black to move, in check from the rook. -/
def P7 : Position :=
  mkPosition [0, 0, 0, 2 ^ 32, 0, 2 ^ 18] [0, 0, 0, 0, 0, 2 ^ 34] BLACK noCastling none 0 1

/-- Total occupancy of `P7`. -/
def occP7 : Bitboard := Nat.lor (sideOccupancy P7 WHITE) (sideOccupancy P7 BLACK)

/-- White Ke1, Qd2, Qh4; Black Ba5, Kb8; White to move.  The d2 queen is
pinned on the e1-a5 descending diagonal; the h4 queen is not pinned. -/
def P9 : Position :=
  mkPosition [0, 0, 0, 0, Nat.lor (2 ^ 11) (2 ^ 31), 0x10]
    [0, 0, 2 ^ 32, 0, 0, 2 ^ 57] WHITE noCastling none 0 1

/-- Total occupancy of `P9`. -/
def occP9 : Bitboard := Nat.lor (sideOccupancy P9 WHITE) (sideOccupancy P9 BLACK)

/-- The pin boards of `P9` for White. -/
def P9pins : AbsolutePins :=
  get_absolute_pins_for_side (get_side_attacks P9 BLACK occP9) (sideOccupancy P9 WHITE) 4

/-- The quiet queen move h4h5. -/
def mQH4H5 : Move := ⟨some ⟨31, 39⟩, none, none, none, none⟩

/-- White Ke1, Pe2; Black Pd4, Ke8; White to move: the double push e2e4 has
the adjacent black pawn needed to arm en passant. -/
def P8 : Position :=
  mkPosition [0x1000, 0, 0, 0, 0, 0x10] [0x8000000, 0, 0, 0, 0, 2 ^ 60] WHITE noCastling none 0 1

/-- The armed double push e2e4 as `evaluate` emits it. -/
def mDP : Move := ⟨some ⟨12, 28⟩, none, none, none, some 28⟩

/-- White R a1 and h1, Ke1, Pe5; Black Pd5 (just double-pushed, so the
en-passant square is set to d5), Ke8; White to move with both castling
rights. -/
def P5ep : Position :=
  mkPosition [2 ^ 36, 0, 0, 0x81, 0, 0x10] [2 ^ 35, 0, 0, 0, 0, 2 ^ 60]
    WHITE ⟨true, true, false, false⟩ (some 35) 0 1

/-- A one-node tree whose root is `ONGOING` at the current depth: the
smallest frontier on which `get_all_nodes_to_expand` selects something. -/
def T0 : PositionTree :=
  ⟨0, [], [(0, [])], [(0, ⟨none, startPos, [], some 0, gsONGOING, 0⟩)], 0⟩

/-- C1: the claim that every move returned by `evaluate` leaves the moving
side's king unattacked (full legality) fails.  In `P1` (White Ka1, Pb2
pinned on the a1-h8 diagonal by the bishop on c3; Black Na3, Bc3, Kh8),
`evaluate` emits the capture b2xa3 off the pin diagonal, and in the position
`make_move` produces, Black's attack summary reports a check against the
white king. -/
theorem C1_pinned_pawn_capture_leaves_own_king_attacked :
    mC1 ∈ (evaluate P1).moves ∧
    (make_move P1 mC1).map (fun q =>
      ((get_side_attacks q BLACK
        (Nat.lor (sideOccupancy q WHITE) (sideOccupancy q BLACK))).check).isSome)
      = some true := by decide

/-- C2: the claim that `make_move` applied to an `evaluate` move keeps the
two sides' occupancies disjoint fails.  The pawn capture b2xa3 of `P1`
carries `capture = None` (the source reads the captured piece at the FROM
square), so `make_move` removes nothing: the white pawn and the black knight
both occupy a3 afterwards. -/
theorem C2_pawn_capture_leaves_captured_piece_on_board :
    mC1 ∈ (evaluate P1).moves ∧
    (make_move P1 mC1).map (fun q =>
      Nat.land (sideOccupancy q WHITE) (sideOccupancy q BLACK)) = some (fromSquare 16) ∧
    fromSquare 16 ≠ 0 := by decide

/-- C3: the claim that a stalemate (not in check, empty move list) yields
game state DRAW with score 0 fails.  In `P3` (the spec's own scenario
`7k/8/8/8/8/8/5PPP/4R2K b`), Black is not in check, the move list is empty,
and `evaluate` returns the initial IN_PROGRESS (ONGOING) state with the raw
material score 800 instead of a draw. -/
theorem C3_stalemate_position_reports_ongoing :
    (get_side_attacks P3 WHITE
      (Nat.lor (sideOccupancy P3 WHITE) (sideOccupancy P3 BLACK))).check = none ∧
    (evaluate P3).moves = [] ∧
    (evaluate P3).game_state = gsONGOING ∧
    (evaluate P3).score = some 800 := by decide

/-- C4: the claim that `make_move` resets the halfmove clock to 0 on pawn
moves and increments it by exactly one otherwise fails: the unconditional
extra increment at the end of `make_move` makes the clock 1 after the pawn
move e2e4 from the start position and 2 after the quiet knight move Nb1c3
(both moves are in the start position's move list). -/
theorem C4_halfmove_clock_double_increment :
    mE2E4 ∈ (evaluate startPos).moves ∧
    mNB1C3 ∈ (evaluate startPos).moves ∧
    (make_move startPos mE2E4).map Position.halfmove_clock = some 1 ∧
    (make_move startPos mNB1C3).map Position.halfmove_clock = some 2 := by decide

/-- C5: the claim that castling drops the moving side's castling rights
fails.  From `P5` (`r3k2r/pppppppp/8/8/8/8/PPPPPPPP/R3K2R w KQkq`), both
castling moves are generated, and after king-side castling the rook bit has
moved from h1 to f1 and the king sits on g1 as claimed, but both White
castling rights are still set. -/
theorem C5_castling_keeps_castling_rights :
    mOO ∈ (evaluate P5).moves ∧
    mOOO ∈ (evaluate P5).moves ∧
    (make_move P5 mOO).map (fun q =>
      (Nat.land (q.pieceBB WHITE ROOK) (fromSquare 7),
       Nat.land (q.pieceBB WHITE ROOK) (fromSquare 5),
       q.pieceBB WHITE KING,
       q.castling_rights.white_king_side,
       q.castling_rights.white_queen_side))
      = some (0, fromSquare 5, fromSquare 6, true, true) := by decide

/-- C6: the claim that the insufficient-material draw requires BOTH sides to
be reduced to king / king+knight / king+bishop fails.  In `P6` Black still
has a queen, yet `evaluate` returns DRAW because the material scan only
inspects side 0 (White, a bare king). -/
theorem C6_insufficient_material_ignores_black_pieces :
    P6.pieceBB BLACK QUEEN ≠ 0 ∧
    (evaluate P6).game_state = gsDRAW ∧
    (evaluate P6).moves = [] ∧
    (evaluate P6).score = some 0 := by decide

/-- C7: the claim that a single-check position with legal moves gets
game state CHECK fails.  In `P7` (the spec's scenario after a1a5: Black Kc5
checked by the rook on a5), the check is single, three legal king moves are
returned, and the game state is the initial IN_PROGRESS (ONGOING) value;
CHECK is assigned only in the double-check branch. -/
theorem C7_single_check_reports_ongoing :
    (get_side_attacks P7 WHITE occP7).check.isSome ∧
    (get_side_attacks P7 WHITE occP7).double_check = false ∧
    (evaluate P7).moves ≠ [] ∧
    (evaluate P7).game_state = gsONGOING := by decide

/-- C8 counterexample: the claim that a set `en_passant_square` lies on rank
3 or rank 6 (the square behind the pushed pawn) and is cleared by every
other move is false.  After the armed double push e2e4 from `P8` the field
holds square 28 = e4 itself, which lies on the fourth rank (28 / 8 = 3 in
0-based rank indexing, not 2); and king-side castling from `P5ep` leaves the
previously set field untouched. -/
theorem C8_counterexample_en_passant_is_destination_square :
    mDP ∈ (evaluate P8).moves ∧
    (make_move P8 mDP).map Position.en_passant_square = some (some 28) ∧
    (28 : Nat) / 8 = 3 ∧
    mOO ∈ (evaluate P5ep).moves ∧
    P5ep.en_passant_square = some 35 ∧
    (make_move P5ep mOO).map Position.en_passant_square = some (some 35) := by decide

/-- C8 amended: `make_move` sets `en_passant_square` to the move's
destination square exactly when the moved piece is a pawn and the move's
en-passant tag equals that destination (the form `evaluate` gives double
pushes with an adjacent enemy pawn, so the recorded square is the pushed
pawn's own landing square on rank 4 or 5, not the square behind it); every
other translation move clears the field, and a castling move leaves it
unchanged. -/
theorem C8_amended_en_passant_field_of_make_move (p : Position) (m : Move)
    (q : Position) (t : Translation) (hq : make_move p m = some q) :
    (m.translation = some t →
      ((get_piece_type_at_square p p.side_to_move t.frm = some PAWN ∧
          m.en_passant = some t.tto) → q.en_passant_square = some t.tto)
      ∧ ((get_piece_type_at_square p p.side_to_move t.frm = some PAWN ∧
          m.en_passant ≠ some t.tto) → q.en_passant_square = none)
      ∧ (∀ k, get_piece_type_at_square p p.side_to_move t.frm = some k → k ≠ PAWN →
          q.en_passant_square = none))
    ∧ (m.translation = none → q.en_passant_square = p.en_passant_square) := by
  constructor
  · intro ht
    refine ⟨?_, ?_, ?_⟩
    · rintro ⟨hpawn, hep⟩
      rw [make_move] at hq
      simp only [ht, hpawn, hep, beq_self_eq_true, if_true, Option.map_some',
        Option.some_inj] at hq
      subst hq
      simp [Position.setPieceBB, apply_ite Position.en_passant_square]
    · rintro ⟨hpawn, hep⟩
      rw [make_move] at hq
      cases hme : m.en_passant with
      | none =>
        simp only [ht, hpawn, hme, beq_self_eq_true, if_true, Option.map_some',
          Option.some_inj] at hq
        subst hq
        cases hmp : m.promotion <;> cases hmc : m.capture <;>
          simp [hmp, hmc, Position.setPieceBB, apply_ite Position.en_passant_square]
      | some e =>
        have hne : (e == t.tto) = false := by
          rw [beq_eq_false_iff_ne]
          intro h
          exact hep (by rw [hme, h])
        simp only [ht, hpawn, hme, hne, beq_self_eq_true, if_true, Bool.false_eq_true,
          if_false, Option.map_some', Option.some_inj] at hq
        subst hq
        simp [Position.setPieceBB, apply_ite Position.en_passant_square]
    · intro k hk hknp
      have hkp : (k == PAWN) = false := by rw [beq_eq_false_iff_ne]; exact hknp
      rw [make_move] at hq
      simp only [ht, hk, hkp, Bool.false_eq_true, if_false, Option.map_some',
        Option.some_inj] at hq
      subst hq
      cases hmc : m.capture <;>
        simp [hmc, Position.setPieceBB, apply_ite Position.en_passant_square]
  · intro ht
    rw [make_move] at hq
    cases hc : m.castling with
    | none => simp [ht, hc] at hq
    | some c =>
      by_cases hks : (c == KING_SIDE) = true
      · simp only [ht, hc, hks, if_true, Option.map_some', Option.some_inj] at hq
        subst hq
        simp [Position.setPieceBB, apply_ite Position.en_passant_square]
      · rw [Bool.not_eq_true] at hks
        by_cases hqs : (c == QUEEN_SIDE) = true
        · simp only [ht, hc, hks, hqs, Bool.false_eq_true, if_false, if_true,
            Option.map_some', Option.some_inj] at hq
          subst hq
          simp [Position.setPieceBB, apply_ite Position.en_passant_square]
        · rw [Bool.not_eq_true] at hqs
          simp [ht, hc, hks, hqs] at hq

/-- Witness for the amended C8 theorem: applying it to the armed double push
e2e4 from `P8` yields `en_passant_square = some 28`. -/
theorem C8_amended_en_passant_witness :
    ((make_move P8 mDP).getD P8).en_passant_square = some 28 := by
  have h : make_move P8 mDP = some ((make_move P8 mDP).getD P8) := by rfl
  exact ((C8_amended_en_passant_field_of_make_move P8 mDP _ ⟨12, 28⟩ h).1 rfl).1
    ⟨by decide, rfl⟩

/-- C9: the claim that the not-in-check queen pin test is per queen (so an
unpinned queen moves freely even when another friendly queen is pinned)
fails.  In `P9`, the h4 queen carries no pin bit and the quiet move h4h5 is
a queen attack outside own occupancy, yet the move list omits it: the pin
boards are intersected with the whole queen bitboard, and the d2 queen's
diagonal pin restricts the h4 queen to the descending-diagonal map. -/
theorem C9_unpinned_queen_restricted_by_other_queens_pin :
    Nat.land P9pins.all (fromSquare 31) = 0 ∧
    Nat.land (Nat.land (get_queen_attacks 31 occP9) (bnot64 (sideOccupancy P9 WHITE)))
      (fromSquare 39) ≠ 0 ∧
    mQH4H5 ∉ (evaluate P9).moves := by decide

/-- C10: in every tree, both frontier-selection functions only ever select a
node whose looked-up game state is CHECK or ONGOING — never CHECKMATE or
DRAW — and these selections are exactly the nodes the expansion loops pass
to `expand_node`. -/
theorem C10_expansion_selects_only_check_or_ongoing (t : PositionTree) (i : Nat) :
    (i ∈ t.get_all_nodes_to_expand →
      t.get_game_state i = some gsCHECK ∨ t.get_game_state i = some gsONGOING)
  ∧ (∀ r, i ∈ t.get_nodes_to_expand r →
      t.get_game_state i = some gsCHECK ∨ t.get_game_state i = some gsONGOING) := by
  constructor
  · intro hmem
    unfold PositionTree.get_all_nodes_to_expand at hmem
    rcases List.mem_append.mp hmem with h | h
    · left
      rcases List.mem_map.mp h with ⟨pr, hpr, hpr1⟩
      have h2 := (List.mem_filter.mp hpr).2
      rw [Bool.and_eq_true] at h2
      have h3 := beq_iff_eq.mp h2.2
      rw [hpr1] at h3
      exact h3
    · right
      have h' := List.take_subset _ _ h
      rcases List.mem_map.mp h' with ⟨pr, hpr, hpr1⟩
      have h2 := (List.mem_filter.mp hpr).2
      rw [Bool.and_eq_true] at h2
      have h3 := beq_iff_eq.mp h2.2
      rw [hpr1] at h3
      exact h3
  · intro r hmem
    unfold PositionTree.get_nodes_to_expand at hmem
    split at hmem
    · simp at hmem
    · rcases List.mem_append.mp hmem with h | h
      · exact Or.inl (beq_iff_eq.mp (List.mem_filter.mp h).2)
      · exact Or.inr (beq_iff_eq.mp (List.mem_filter.mp (List.take_subset _ _ h)).2)

/-- Witness for C10: the one-node tree `T0` selects its ONGOING root, and
the theorem classifies it. -/
theorem C10_expansion_selection_witness :
    T0.get_game_state 0 = some gsCHECK ∨ T0.get_game_state 0 = some gsONGOING :=
  (C10_expansion_selects_only_check_or_ongoing T0 0).1 (by decide)

end Siegfried
